import Mathlib

/-!
Verification of `src/visualize_results.py` (rooftop-segmentation).

The script is embedded shallowly:
  * a JSON value that the script consumes is modelled by the fields it reads:
    an annotation record (`MaskData`) holds an optional `shapes` list, a shape
    holds an optional `shape_type` string (the key may be absent, in which case
    Python dict access raises `KeyError`) and a `points` list whose entries are
    integer tuples of arbitrary arity (a non-pair entry makes Python's
    `for x, y in ...` unpacking raise `ValueError`);
  * PIL drawing is modelled as a trace: the mask image records its size, its
    background colour and the ordered list of polygon draw operations issued on
    it — an empty trace is exactly an untouched black canvas;
  * a file on disk is modelled by its path together with the outcome of
    `load_mask_data` on it (`Except PyError MaskData`), since the script only
    ever observes a file through that call;
  * `random.sample(pop, k)` is modelled by taking the first `k` elements of a
    permutation of the population that is passed in explicitly: the permutation
    carries the randomness, and every resolution of Python's sampler is the
    prefix of some permutation of `pop`.
-/

set_option autoImplicit false

namespace VisualizeResults

/-- Exceptions the script can raise while processing one file. -/
inductive PyError where
  | keyError
  | valueError
  | jsonDecodeError
  deriving DecidableEq, Repr

/-- An RGB colour triple. -/
abbrev RGB := Int × Int × Int

/-- One shape entry of an annotation record, as the script reads it:
`shape['shape_type']` (absent key modelled as `none`) and `shape['points']`,
whose entries are numeric tuples of arbitrary arity. -/
structure Shape where
  shape_type : Option String
  points : List (List Int)
  deriving DecidableEq, Repr

/-- The parsed content of one annotation file: only the `shapes` key is
consumed, and the script reads it with `mask_data.get('shapes', [])`. -/
structure MaskData where
  shapes : Option (List Shape)
  deriving DecidableEq, Repr

/-- `mask_data.get('shapes', [])`. -/
def MaskData.getShapes (md : MaskData) : List Shape :=
  md.shapes.getD []

/-- One `draw.polygon(points, fill=color, outline=(255, 255, 255))` call. -/
structure DrawOp where
  points : List (Int × Int)
  fill : RGB
  outline : RGB
  deriving DecidableEq, Repr

/-- The mask image as a drawing trace: `Image.new('RGB', image_size, (0, 0, 0))`
followed by the ordered polygon draw operations.  `ops = []` means no pixel of
the black background was ever modified. -/
structure MaskImage where
  size : Nat × Nat
  background : RGB
  ops : List DrawOp
  deriving DecidableEq, Repr

/-- The palette `colors` of `create_mask_from_polygons` (line 27). -/
def colors : List RGB :=
  [(255, 0, 0), (0, 255, 0), (0, 0, 255), (255, 255, 0), (255, 0, 255), (0, 255, 255)]

/-- `[(int(x), int(y)) for x, y in shape['points']]`: each entry must unpack as
a pair, a tuple of any other arity raises `ValueError` at that entry. -/
def convertPoints : List (List Int) → Except PyError (List (Int × Int))
  | [] => .ok []
  | p :: rest =>
    match p with
    | [x, y] =>
      match convertPoints rest with
      | .error e => .error e
      | .ok tl => .ok ((x, y) :: tl)
    | _ => .error .valueError

/-- The body of the `for i, shape in enumerate(...)` loop for one shape at
enumeration index `i` (lines 29-39): read `shape['shape_type']` (raising
`KeyError` when absent), and when it equals `"polygon"` convert the points,
pick `colors[i % len(colors)]` and emit a draw operation when at least three
points are present.  `ok none` is an iteration that draws nothing. -/
def shapeOp (i : Nat) (shape : Shape) : Except PyError (Option DrawOp) :=
  match shape.shape_type with
  | none => .error .keyError
  | some t =>
    if t = "polygon" then
      match convertPoints shape.points with
      | .error e => .error e
      | .ok points =>
        if points.length ≥ 3 then
          .ok (some { points := points, fill := colors.getD (i % colors.length) (0, 0, 0),
                      outline := (255, 255, 255) })
        else
          .ok none
    else
      .ok none

/-- The whole loop of `create_mask_from_polygons`, started at enumeration
index `i`: an exception in any iteration propagates, otherwise the emitted
draw operations are collected in order. -/
def drawShapes : Nat → List Shape → Except PyError (List DrawOp)
  | _, [] => .ok []
  | i, s :: rest =>
    match shapeOp i s with
    | .error e => .error e
    | .ok none => drawShapes (i + 1) rest
    | .ok (some op) =>
      match drawShapes (i + 1) rest with
      | .error e => .error e
      | .ok ops => .ok (op :: ops)

/-- `create_mask_from_polygons(mask_data, image_size=(1024, 1024))`
(lines 20-41). -/
def create_mask_from_polygons (mask_data : MaskData)
    (image_size : Nat × Nat := (1024, 1024)) : Except PyError MaskImage :=
  match drawShapes 0 mask_data.getShapes with
  | .error e => .error e
  | .ok ops => .ok { size := image_size, background := (0, 0, 0), ops := ops }

instance {ε α : Type} [DecidableEq ε] [DecidableEq α] : DecidableEq (Except ε α) := fun a b =>
  match a, b with
  | .ok x, .ok y => decidable_of_iff (x = y) (by simp)
  | .error x, .error y => decidable_of_iff (x = y) (by simp)
  | .ok _, .error _ => .isFalse (by simp)
  | .error _, .ok _ => .isFalse (by simp)

/-- One annotation file, modelled by its path and by the outcome the Mask
Loader (`load_mask_data`) produces on it: a parsed record, or the exception
raised while opening or decoding it. -/
structure PyFile where
  path : String
  content : Except PyError MaskData
  deriving DecidableEq, Repr

/-- Whether `load_mask_data` succeeds on the file. -/
def loadOk (f : PyFile) : Bool :=
  match f.content with
  | .ok _ => true
  | .error _ => false

/-- The Dataset Statistics record returned by `analyze_dataset_stats`
(lines 117-123). -/
structure DatasetStats where
  total_tiles : Nat
  total_buildings : Nat
  avg_buildings_per_tile : Rat
  max_buildings_per_tile : Nat
  min_buildings_per_tile : Nat
  deriving DecidableEq, Repr

/-- The `buildings_per_tile` list built by the loop of `analyze_dataset_stats`
(lines 102-109): each file that loads contributes `len(shapes)`, a file whose
load raises is logged and skipped. -/
def buildingsPerTile (mask_files : List PyFile) : List Nat :=
  mask_files.filterMap fun f =>
    match f.content with
    | .ok md => some md.getShapes.length
    | .error _ => none

/-- `analyze_dataset_stats` (lines 91-123): `total_tiles` is
`len(mask_files)`, `total_buildings` is accumulated over the files that load,
and mean / max / min fall back to `0` on an empty `buildings_per_tile`. -/
def analyze_dataset_stats (mask_files : List PyFile) : DatasetStats :=
  let buildings_per_tile := buildingsPerTile mask_files
  { total_tiles := mask_files.length
    total_buildings := buildings_per_tile.sum
    avg_buildings_per_tile :=
      if buildings_per_tile.isEmpty then 0
      else (buildings_per_tile.sum : Rat) / (buildings_per_tile.length : Rat)
    max_buildings_per_tile := buildings_per_tile.max?.getD 0
    min_buildings_per_tile := buildings_per_tile.min?.getD 0 }

/-- One cell of the 2x3 grid: the rendered mask with its building-count
caption, or the error placeholder drawn by the `except` branch. -/
inductive Cell where
  | rendered (img : MaskImage) (num_buildings : Nat)
  | errorPlaceholder
  deriving DecidableEq, Repr

/-- The `try` body of the loop in `visualize_sample_masks` (lines 63-84) for
one selected file: load it, rasterize it, caption it with `len(shapes)`; any
exception yields the placeholder cell instead. -/
def renderCell (f : PyFile) : Cell :=
  match f.content with
  | .error _ => .errorPlaceholder
  | .ok md =>
    match create_mask_from_polygons md (1024, 1024) with
    | .error _ => .errorPlaceholder
    | .ok img => .rendered img md.getShapes.length

/-- `random.sample(population, k)` with the randomness resolved by an
explicitly supplied permutation of the population: the sample is the first
`k` entries of that permutation. -/
def random_sample (perm : List PyFile) (k : Nat) : List PyFile :=
  perm.take k

/-- `visualize_sample_masks(data_dir, num_samples=6)` (lines 43-89), after the
Dataset Scanner produced `mask_files` and with the sampler's randomness
resolved by `perm`.  The result records the selected files, the grid cells
drawn for them, and the Python return value: `None` on the empty scan
(line 50), `len(mask_files)` otherwise (line 89). -/
def visualize_sample_masks (mask_files : List PyFile) (perm : List PyFile)
    (num_samples : Nat := 6) : List PyFile × List Cell × Option Nat :=
  if mask_files.isEmpty then
    ([], [], none)
  else
    let sample_files := random_sample perm (min num_samples mask_files.length)
    (sample_files, sample_files.map renderCell, some mask_files.length)

/-- A file whose load raises a JSON decoding error. -/
def corruptFile : PyFile :=
  { path := "corrupt.json", content := .error .jsonDecodeError }

/-- A well-formed triangle polygon shape. -/
def polyTriangle : Shape :=
  { shape_type := some "polygon", points := [[0, 0], [10, 0], [0, 10]] }

/-- The draw operation the rasterizer emits for `polyTriangle` at index 6. -/
def triangleOp : DrawOp :=
  { points := [(0, 0), (10, 0), (0, 10)], fill := (255, 0, 0), outline := (255, 255, 255) }

/-- A record holding exactly seven polygon shapes. -/
def sevenPolygonRecord : MaskData :=
  { shapes := some (List.replicate 7 polyTriangle) }

/-- A polygon shape with only two points. -/
def twoPointShape : Shape :=
  { shape_type := some "polygon", points := [[0, 0], [5, 5]] }

/-- A shape whose `shape_type` is not `"polygon"`. -/
def rectangleShape : Shape :=
  { shape_type := some "rectangle", points := [[0, 0], [1, 1], [2, 2], [3, 3]] }

/-- A valid annotation file with no shapes. -/
def tileA : PyFile :=
  { path := "tile_a_mask.json", content := .ok { shapes := some [] } }

/-- A valid annotation file with one polygon shape. -/
def tileB : PyFile :=
  { path := "tile_b_mask.json", content := .ok { shapes := some [polyTriangle] } }

/-- A record whose two shapes are both undrawable (wrong type / too few
points) yet both count as buildings. -/
def skippedShapesRecord : MaskData :=
  { shapes := some [rectangleShape, twoPointShape] }

/-- A file whose record is `skippedShapesRecord`. -/
def skippedShapesFile : PyFile :=
  { path := "skipped.json", content := .ok skippedShapesRecord }

/-! ### Helper lemmas -/

theorem buildingsPerTile_cons (f : PyFile) (rest : List PyFile) :
    buildingsPerTile (f :: rest) =
      match f.content with
      | .ok md => md.getShapes.length :: buildingsPerTile rest
      | .error _ => buildingsPerTile rest := by
  cases hc : f.content <;> simp [buildingsPerTile, List.filterMap_cons, hc]

theorem buildingsPerTile_filter_loadOk (files : List PyFile) :
    buildingsPerTile (files.filter loadOk) = buildingsPerTile files := by
  induction files with
  | nil => rfl
  | cons f rest ih =>
    rw [List.filter_cons]
    cases hc : f.content with
    | ok md => simp [loadOk, hc, buildingsPerTile_cons, ih]
    | error e => simp [loadOk, hc, buildingsPerTile_cons, ih]

theorem convertPoints_ok_of_pairs (pts : List (List Int))
    (h : ∀ p ∈ pts, p.length = 2) :
    ∃ l, convertPoints pts = .ok l ∧ l.length = pts.length := by
  induction pts with
  | nil => exact ⟨[], rfl, rfl⟩
  | cons p rest ih =>
    obtain ⟨l, hl, hlen⟩ := ih fun q hq => h q (List.mem_cons_of_mem _ hq)
    have hp : p.length = 2 := h p (List.mem_cons_self _ _)
    match p, hp with
    | [x, y], _ =>
      refine ⟨(x, y) :: l, ?_, by simp [hlen]⟩
      unfold convertPoints
      rw [hl]

theorem isEmpty_eq_false_of_ne_nil {l : List PyFile} (h : l ≠ []) :
    l.isEmpty = false := by
  cases l with
  | nil => exact absurd rfl h
  | cons a t => rfl

/-! ### Claims -/

/-- Claim C2: with zero matching files the Stats Aggregator returns all-zero
aggregates (average included) and raises no exception. -/
theorem stats_empty_scan_all_zero :
    analyze_dataset_stats [] =
      { total_tiles := 0, total_buildings := 0, avg_buildings_per_tile := 0,
        max_buildings_per_tile := 0, min_buildings_per_tile := 0 } := by
  decide

/-- Claim C1, counterexample: a single file whose load fails yields
`total_tiles = 1`, so the failed file is counted as a tile rather than being
excluded from every aggregate count as the claim states. -/
theorem failed_file_still_counted_in_total_tiles :
    analyze_dataset_stats [corruptFile] =
      { total_tiles := 1, total_buildings := 0, avg_buildings_per_tile := 0,
        max_buildings_per_tile := 0, min_buildings_per_tile := 0 } ∧
    (analyze_dataset_stats [corruptFile]).total_tiles ≠ 0 := by
  decide

/-- Claim C1 (amended): a file whose load fails is excluded from
`total_buildings`, `avg_buildings_per_tile`, `max_buildings_per_tile` and
`min_buildings_per_tile` (skipped, not counted as zero), but `total_tiles`
counts every scanned file, the failed ones included. -/
theorem stats_skip_failed_files (files : List PyFile) :
    (analyze_dataset_stats files).total_tiles = files.length ∧
    (analyze_dataset_stats files).total_buildings
      = (analyze_dataset_stats (files.filter loadOk)).total_buildings ∧
    (analyze_dataset_stats files).avg_buildings_per_tile
      = (analyze_dataset_stats (files.filter loadOk)).avg_buildings_per_tile ∧
    (analyze_dataset_stats files).max_buildings_per_tile
      = (analyze_dataset_stats (files.filter loadOk)).max_buildings_per_tile ∧
    (analyze_dataset_stats files).min_buildings_per_tile
      = (analyze_dataset_stats (files.filter loadOk)).min_buildings_per_tile := by
  simp [analyze_dataset_stats, buildingsPerTile_filter_loadOk]

/-- Claim C3: every draw operation the rasterizer emits for the shape at
enumeration index `i` is filled with `colors[i % 6]`, deterministically. -/
theorem fill_color_cycles_mod_six (i : Nat) (s : Shape) (op : DrawOp)
    (h : shapeOp i s = .ok (some op)) :
    op.fill = colors.getD (i % 6) (0, 0, 0) := by
  unfold shapeOp at h
  split at h
  · exact absurd h (by simp)
  · split at h
    · split at h
      · exact absurd h (by simp)
      · split at h
        · simp only [Except.ok.injEq, Option.some.injEq] at h
          subst h
          rfl
        · exact absurd h (by simp)
    · exact absurd h (by simp)

/-- Witness for C3: in `sevenPolygonRecord`, a record of exactly seven polygon
shapes, the shape at index 6 produces a draw operation filled with
`palette[0] = (255, 0, 0)`. -/
theorem fill_color_cycles_mod_six_witness :
    sevenPolygonRecord.getShapes.length = 7 ∧
    shapeOp 6 polyTriangle = .ok (some triangleOp) ∧
    triangleOp.fill = (255, 0, 0) := by
  refine ⟨by decide, by decide, ?_⟩
  exact fill_color_cycles_mod_six 6 polyTriangle triangleOp (by decide)

/-- Claim C4: a record whose `shapes` field is absent or empty rasterizes to
an untouched black canvas of exactly the requested size. -/
theorem empty_shapes_black_canvas (md : MaskData) (sz : Nat × Nat)
    (h : md.shapes = none ∨ md.shapes = some []) :
    create_mask_from_polygons md sz =
      .ok { size := sz, background := (0, 0, 0), ops := [] } := by
  rcases h with h | h <;>
    simp [create_mask_from_polygons, MaskData.getShapes, h, drawShapes]

/-- Witness for C4: the record with no `shapes` key yields the untouched black
1024x1024 canvas. -/
theorem empty_shapes_black_canvas_witness :
    create_mask_from_polygons { shapes := none } (1024, 1024) =
      .ok { size := (1024, 1024), background := (0, 0, 0), ops := [] } :=
  empty_shapes_black_canvas { shapes := none } (1024, 1024) (Or.inl rfl)

/-- Claim C5: a shape with fewer than three points draws nothing: its loop
iteration emits no operation, and the loop over a list starting with it
produces exactly the operations of the remaining shapes. -/
theorem few_points_shape_skipped (i : Nat) (s : Shape) (t : String)
    (ht : s.shape_type = some t)
    (hpairs : ∀ p ∈ s.points, p.length = 2)
    (hfew : s.points.length < 3) :
    shapeOp i s = .ok none ∧
      ∀ rest, drawShapes i (s :: rest) = drawShapes (i + 1) rest := by
  have hop : shapeOp i s = .ok none := by
    by_cases hp : t = "polygon"
    · obtain ⟨l, hl, hlen⟩ := convertPoints_ok_of_pairs s.points hpairs
      have hnl : ¬ l.length ≥ 3 := by omega
      simp [shapeOp, ht, hp, hl, hnl]
    · simp [shapeOp, ht, hp]
  exact ⟨hop, fun rest => by simp [drawShapes, hop]⟩

/-- Witness for C5: the two-point polygon shape emits no draw operation and
contributes nothing to the loop. -/
theorem few_points_shape_skipped_witness :
    shapeOp 0 twoPointShape = .ok none ∧
    drawShapes 0 [twoPointShape, polyTriangle] = drawShapes 1 [polyTriangle] :=
  ⟨(few_points_shape_skipped 0 twoPointShape "polygon" rfl (by decide) (by decide)).1,
   (few_points_shape_skipped 0 twoPointShape "polygon" rfl (by decide) (by decide)).2
     [polyTriangle]⟩

/-- Claim C7: a shape whose `shape_type` is a string other than `"polygon"`
is ignored: its iteration raises nothing and draws nothing. -/
theorem non_polygon_shape_ignored (i : Nat) (s : Shape) (t : String)
    (ht : s.shape_type = some t) (hnp : t ≠ "polygon") :
    shapeOp i s = .ok none := by
  simp [shapeOp, ht, hnp]

/-- Witness for C7: a `"rectangle"` shape is ignored without error. -/
theorem non_polygon_shape_ignored_witness :
    shapeOp 0 rectangleShape = .ok none :=
  non_polygon_shape_ignored 0 rectangleShape "rectangle" rfl (by decide)

/-- Claim C8: for a file that loads, both the statistics contribution and the
grid-cell caption use `len(shapes)` as the building count, whether or not the
shapes are drawable. -/
theorem building_count_is_shapes_length (f : PyFile) (md : MaskData)
    (h : f.content = .ok md) :
    buildingsPerTile [f] = [md.getShapes.length] ∧
    ∀ img n, renderCell f = .rendered img n → n = md.getShapes.length := by
  constructor
  · simp [buildingsPerTile, h]
  · intro img n hr
    simp only [renderCell, h] at hr
    cases hc : create_mask_from_polygons md (1024, 1024) with
    | error e => simp [hc] at hr
    | ok im =>
      simp only [hc, Cell.rendered.injEq] at hr
      exact hr.2.symm

/-- Witness for C8: the file holding one rectangle shape and one two-point
polygon counts two buildings although its rasterization draws nothing. -/
theorem building_count_is_shapes_length_witness :
    buildingsPerTile [skippedShapesFile] = [2] ∧
    create_mask_from_polygons skippedShapesRecord (1024, 1024) =
      .ok { size := (1024, 1024), background := (0, 0, 0), ops := [] } :=
  ⟨by exact (building_count_is_shapes_length skippedShapesFile skippedShapesRecord rfl).1,
   by decide⟩

/-- Claim C9: the rasterizer raises (rather than skips) on a shape missing the
`shape_type` key (`KeyError`) and on a polygon shape holding a points entry
that is not a 2-element pair (`ValueError` while unpacking). -/
theorem malformed_shape_raises :
    create_mask_from_polygons
        { shapes := some [{ shape_type := none, points := [[0, 0], [1, 0], [0, 1]] }] }
        (1024, 1024) = .error .keyError ∧
    create_mask_from_polygons
        { shapes := some [{ shape_type := some "polygon",
                            points := [[0, 0, 5], [1, 0], [0, 1]] }] }
        (1024, 1024) = .error .valueError := by
  decide

/-- Claim C10: on an empty scan the Sample Visualizer returns no count
(`None`); on a non-empty scan it returns the total number of files found. -/
theorem visualize_return_value (mask_files perm : List PyFile) (n : Nat) :
    (mask_files = [] → (visualize_sample_masks mask_files perm n).2.2 = none) ∧
    (mask_files ≠ [] →
      (visualize_sample_masks mask_files perm n).2.2 = some mask_files.length) := by
  constructor
  · intro h; subst h; rfl
  · intro h
    simp [visualize_sample_masks, isEmpty_eq_false_of_ne_nil h]

/-- Witness for C10: the empty scan returns `none`; a one-file scan returns
`some 1`. -/
theorem visualize_return_value_witness :
    (visualize_sample_masks [] [] 6).2.2 = none ∧
    (visualize_sample_masks [tileA] [tileA] 6).2.2 = some [tileA].length :=
  ⟨(visualize_return_value [] [] 6).1 rfl,
   (visualize_return_value [tileA] [tileA] 6).2 (by simp)⟩

/-- Claim C6: on a non-empty scan the Sample Visualizer selects exactly
`min(requested, available)` files, all distinct and all drawn from the scan
result, and renders exactly that many grid cells. -/
theorem sample_selects_min_without_replacement (mask_files perm : List PyFile)
    (n : Nat) (hne : mask_files ≠ []) (hperm : perm.Perm mask_files)
    (hnd : mask_files.Nodup) :
    (visualize_sample_masks mask_files perm n).1.length = min n mask_files.length ∧
    (visualize_sample_masks mask_files perm n).1.Nodup ∧
    (∀ f ∈ (visualize_sample_masks mask_files perm n).1, f ∈ mask_files) ∧
    (visualize_sample_masks mask_files perm n).2.1.length = min n mask_files.length := by
  have hE := isEmpty_eq_false_of_ne_nil hne
  simp only [visualize_sample_masks, hE, Bool.false_eq_true, if_false, random_sample]
  refine ⟨?_, ?_, ?_, ?_⟩
  · rw [List.length_take, hperm.length_eq]
    exact Nat.min_eq_left (Nat.min_le_right n _)
  · exact ((List.take_sublist _ _).nodup) (hperm.symm.nodup hnd)
  · exact fun f hf => hperm.subset (List.take_subset _ _ hf)
  · rw [List.length_map, List.length_take, hperm.length_eq]
    exact Nat.min_eq_left (Nat.min_le_right n _)

/-- Witness for C6: requesting 6 samples from a scan holding only the two
files `tileA` and `tileB` selects exactly 2 distinct files and renders 2
cells. -/
theorem sample_selects_min_without_replacement_witness :
    (visualize_sample_masks [tileA, tileB] [tileB, tileA] 6).1.length
      = min 6 [tileA, tileB].length ∧
    (visualize_sample_masks [tileA, tileB] [tileB, tileA] 6).1.Nodup ∧
    (∀ f ∈ (visualize_sample_masks [tileA, tileB] [tileB, tileA] 6).1,
      f ∈ [tileA, tileB]) ∧
    (visualize_sample_masks [tileA, tileB] [tileB, tileA] 6).2.1.length
      = min 6 [tileA, tileB].length :=
  sample_selects_min_without_replacement [tileA, tileB] [tileB, tileA] 6
    (by simp) (List.Perm.swap tileA tileB []) (by decide)

end VisualizeResults
